import Mathlib

/-!
Verification development for the premarket signals engine
(`src/config.py`, `src/strategies.py`, `src/signals_bot.py`).

Modelling conventions:
* Python floats are modelled as exact rationals (`ℚ`); Python ints as `ℤ`/`ℕ`.
* `int(x)` on a float truncates toward zero; `pyInt` mirrors this.
* `round(x, n)` uses round-half-to-even; `pyRound` mirrors this on `ℚ`.
* A `ZeroDivisionError` raised inside a strategy's `analyze` is caught by its
  `except` clause, which returns `None`; each analyzer below therefore returns
  `none` exactly when the risk/reward denominator it divides by is zero.
* A Python dict that omits a key in one code path is modelled by an `Option`
  field that is `none` in that path.
* `list.sort(key=..., reverse=True)` is a stable descending sort; it is
  modelled by the stable insertion sort `sortDesc` below.
-/

unseal Rat.mul Rat.inv Rat.add Rat.sub Rat.ofScientific

namespace SignalsBot

/-- Python `int()` applied to a rational value: truncation toward zero. -/
def pyInt (q : ℚ) : ℤ := if q < 0 then ⌈q⌉ else ⌊q⌋

/-- Round half to even to an integer, as Python's builtin `round` does. -/
def bankersRound (q : ℚ) : ℤ :=
  let f := ⌊q⌋
  let r := q - (f : ℚ)
  if r < 1/2 then f
  else if 1/2 < r then f + 1
  else if f % 2 = 0 then f else f + 1

/-- Python `round(q, n)`: round half to even at `n` decimal places. -/
def pyRound (q : ℚ) (n : ℕ) : ℚ := (bankersRound (q * 10 ^ n) : ℚ) / 10 ^ n

/-- `TradingConfig` from `src/config.py` (the fields the engine reads). -/
structure TradingConfig where
  max_risk_per_trade : ℚ
  min_risk_reward_ratio : ℚ
  max_position_size : ℚ
  volume_threshold_multiplier : ℚ
  gap_threshold_percent : ℚ
  strategy_weights : List (String × ℚ)
deriving DecidableEq

/-- The global `trading_config` instance with the defaults of `src/config.py`. -/
def trading_config : TradingConfig :=
  { max_risk_per_trade := 2/100
    min_risk_reward_ratio := 2
    max_position_size := 10/100
    volume_threshold_multiplier := 2
    gap_threshold_percent := 3
    strategy_weights :=
      [("gap_momentum", 4/10), ("volume_breakout", 3/10), ("premarket_momentum", 3/10)] }

/-- `StockData` from `src/data_fetcher.py` (the fields the engine reads;
`market_cap` and `timestamp` are informational only and omitted). -/
structure StockData where
  symbol : String
  current_price : ℚ
  previous_close : ℚ
  premarket_price : Option ℚ
  premarket_volume : ℕ
  regular_volume : ℕ
  avg_volume : ℚ
  gap_percent : ℚ
deriving DecidableEq

/-- `StrategySignal` from `src/strategies.py` (`reasoning` and `timestamp` are
informational only and omitted). -/
structure StrategySignal where
  symbol : String
  strategy_name : String
  signal_type : String
  confidence : ℚ
  entry_price : ℚ
  stop_loss : ℚ
  take_profit : ℚ
  risk_reward_ratio : ℚ
deriving DecidableEq

/-- Result record of `BaseStrategy.calculate_position_sizing`
(`src/strategies.py`). The zero-price-risk early return omits the
`position_percent` key, hence the `Option`. -/
structure PositionSizing where
  shares : ℤ
  position_value : ℚ
  risk_amount : ℚ
  position_percent : Option ℚ
deriving DecidableEq

/-- `BaseStrategy.calculate_position_sizing` from `src/strategies.py`
(its `stock_data` argument is unused by the source and dropped here). -/
def calculate_position_sizing (cfg : TradingConfig) (entry_price stop_loss : ℚ) :
    PositionSizing :=
  let account_value : ℚ := 100000
  let risk_amount := account_value * cfg.max_risk_per_trade
  let price_risk := |entry_price - stop_loss|
  if price_risk = 0 then
    { shares := 0, position_value := 0, risk_amount := 0, position_percent := none }
  else
    let shares0 := pyInt (risk_amount / price_risk)
    let position_value0 := (shares0 : ℚ) * entry_price
    let max_position_value := account_value * cfg.max_position_size
    let shares :=
      if max_position_value < position_value0 then pyInt (max_position_value / entry_price)
      else shares0
    let position_value := (shares : ℚ) * entry_price
    { shares := shares
      position_value := position_value
      risk_amount := (shares : ℚ) * price_risk
      position_percent := some (position_value / account_value * 100) }

/-- `GapMomentumStrategy.analyze` from `src/strategies.py`. The division that
computes the risk/reward quotient raises `ZeroDivisionError` when
`entry_price - stop_loss` is zero; the `except` clause turns that into
`None`, modelled by the explicit zero-denominator guard. -/
def gap_momentum_analyze (cfg : TradingConfig) (d : StockData) : Option StrategySignal :=
  let gap_percent := d.gap_percent
  let current_price := d.current_price
  let volume_ratio : ℚ :=
    if 0 < d.avg_volume then
      ((d.regular_volume : ℚ) + (d.premarket_volume : ℚ)) / d.avg_volume
    else 1
  if cfg.gap_threshold_percent ≤ gap_percent then
    if cfg.volume_threshold_multiplier ≤ volume_ratio then
      let entry_price := current_price
      let stop_loss := current_price * (97/100)
      let take_profit := current_price * (106/100)
      if entry_price - stop_loss = 0 then none
      else
        some { symbol := d.symbol
               strategy_name := "Gap Momentum"
               signal_type := "BUY"
               confidence := min (9/10) ((gap_percent / 10) * (volume_ratio / 3))
               entry_price := entry_price
               stop_loss := stop_loss
               take_profit := take_profit
               risk_reward_ratio := (take_profit - entry_price) / (entry_price - stop_loss) }
    else none
  else if gap_percent ≤ -cfg.gap_threshold_percent then
    if cfg.volume_threshold_multiplier ≤ volume_ratio then
      let entry_price := current_price
      let stop_loss := current_price * (95/100)
      let take_profit := current_price * (108/100)
      if entry_price - stop_loss = 0 then none
      else
        some { symbol := d.symbol
               strategy_name := "Gap Momentum"
               signal_type := "BUY"
               confidence := min (8/10) ((|gap_percent| / 15) * (volume_ratio / 3))
               entry_price := entry_price
               stop_loss := stop_loss
               take_profit := take_profit
               risk_reward_ratio := (take_profit - entry_price) / (entry_price - stop_loss) }
    else none
  else none

/-- `VolumeBreakoutStrategy.analyze` from `src/strategies.py`, with the same
zero-denominator-to-`none` modelling of the caught `ZeroDivisionError`. -/
def volume_breakout_analyze (cfg : TradingConfig) (d : StockData) : Option StrategySignal :=
  let current_price := d.current_price
  let total_volume : ℚ := (d.regular_volume : ℚ) + (d.premarket_volume : ℚ)
  if d.avg_volume = 0 then none
  else
    let volume_ratio := total_volume / d.avg_volume
    if cfg.volume_threshold_multiplier * (3/2) ≤ volume_ratio then
      if 1 < d.gap_percent then
        let entry_price := current_price
        let stop_loss := current_price * (96/100)
        let take_profit := current_price * (108/100)
        if |entry_price - stop_loss| = 0 then none
        else
          some { symbol := d.symbol
                 strategy_name := "Volume Breakout"
                 signal_type := "BUY"
                 confidence := min (85/100) (volume_ratio / 5)
                 entry_price := entry_price
                 stop_loss := stop_loss
                 take_profit := take_profit
                 risk_reward_ratio := |take_profit - entry_price| / |entry_price - stop_loss| }
      else if d.gap_percent < -1 then
        let entry_price := current_price
        let stop_loss := current_price * (104/100)
        let take_profit := current_price * (92/100)
        if |entry_price - stop_loss| = 0 then none
        else
          some { symbol := d.symbol
                 strategy_name := "Volume Breakout"
                 signal_type := "SELL"
                 confidence := min (85/100) (volume_ratio / 5)
                 entry_price := entry_price
                 stop_loss := stop_loss
                 take_profit := take_profit
                 risk_reward_ratio := |take_profit - entry_price| / |entry_price - stop_loss| }
      else none
    else none

/-- `PremarketMomentumStrategy.analyze` from `src/strategies.py`. Python's
`stock_data.premarket_price or current_price` falls back to `current_price`
both when the premarket price is `None` and when it is `0.0` (falsy). The
strategy reads no configuration field. -/
def premarket_momentum_analyze (_cfg : TradingConfig) (d : StockData) :
    Option StrategySignal :=
  let current_price := d.current_price
  let previous_close := d.previous_close
  let premarket_price :=
    match d.premarket_price with
    | some p => if p = 0 then current_price else p
    | none => current_price
  if 0 < previous_close then
    let premarket_move := (premarket_price - previous_close) / previous_close * 100
    if 2 ≤ |premarket_move| then
      let premarket_volume_ratio : ℚ :=
        if 0 < d.avg_volume ∧ 0 < d.premarket_volume then
          (d.premarket_volume : ℚ) / (d.avg_volume * (1/10))
        else 1
      if 2 < premarket_move then
        let entry_price := current_price
        let stop_loss := current_price * (97/100)
        let take_profit := current_price * (106/100)
        if entry_price - stop_loss = 0 then none
        else
          some { symbol := d.symbol
                 strategy_name := "Premarket Momentum"
                 signal_type := "BUY"
                 confidence := min (8/10) ((|premarket_move| / 8) * premarket_volume_ratio)
                 entry_price := entry_price
                 stop_loss := stop_loss
                 take_profit := take_profit
                 risk_reward_ratio := (take_profit - entry_price) / (entry_price - stop_loss) }
      else if premarket_move < -2 then
        let entry_price := current_price
        let stop_loss := current_price * (94/100)
        let take_profit := current_price * (109/100)
        if entry_price - stop_loss = 0 then none
        else
          some { symbol := d.symbol
                 strategy_name := "Premarket Momentum"
                 signal_type := "BUY"
                 confidence := min (8/10) ((|premarket_move| / 8) * premarket_volume_ratio)
                 entry_price := entry_price
                 stop_loss := stop_loss
                 take_profit := take_profit
                 risk_reward_ratio := (take_profit - entry_price) / (entry_price - stop_loss) }
      else none
    else none
  else none

/-- `StrategyManager.analyze_stock` from `src/strategies.py`: run the three
registered strategies in order and keep each signal whose confidence exceeds
0.3 and whose risk/reward meets the configured minimum. -/
def analyze_stock (cfg : TradingConfig) (d : StockData) : List StrategySignal :=
  [gap_momentum_analyze cfg d, volume_breakout_analyze cfg d,
    premarket_momentum_analyze cfg d].filterMap
    (fun r =>
      match r with
      | some signal =>
        if 3/10 < signal.confidence ∧ cfg.min_risk_reward_ratio ≤ signal.risk_reward_ratio
        then some signal
        else none
      | none => none)

/-- The name normalization `signal.strategy_name.lower().replace(' ', '_')`
used by `StrategyManager.get_best_signal`. -/
def normalize_name (s : String) : String :=
  s.map (fun c => if c = ' ' then '_' else c.toLower)

/-- `trading_config.strategy_weights.get(normalized_name, 0.5)`. -/
def strategy_weight (cfg : TradingConfig) (name : String) : ℚ :=
  match cfg.strategy_weights.find? (fun kv => kv.1 == normalize_name name) with
  | some kv => kv.2
  | none => 1/2

/-- The weighted score `signal.confidence * strategy_weight` computed by
`StrategyManager.get_best_signal`. -/
def weighted_score (cfg : TradingConfig) (s : StrategySignal) : ℚ :=
  s.confidence * strategy_weight cfg s.strategy_name

/-- Stable insertion step for the descending sort: `x` passes the elements
strictly greater than it and stops in front of the first element whose key is
less than or equal to its own, so earlier input elements stay in front of
later tied ones. -/
def insertDesc {α : Type} (key : α → ℚ) (x : α) : List α → List α
  | [] => [x]
  | y :: ys => if key x < key y then y :: insertDesc key x ys else x :: y :: ys

/-- Stable descending sort by `key`: the model of Python's stable
`list.sort(key=..., reverse=True)`. -/
def sortDesc {α : Type} (key : α → ℚ) : List α → List α
  | [] => []
  | x :: xs => insertDesc key x (sortDesc key xs)

/-- The first element of maximal key, ties resolved toward the front of the
list; a specification-side companion of `sortDesc`'s head. -/
def firstMax {α : Type} (key : α → ℚ) : List α → Option α
  | [] => none
  | x :: xs =>
    match firstMax key xs with
    | none => some x
    | some y => if key x < key y then some y else some x

/-- `StrategyManager.get_best_signal` from `src/strategies.py`: stable
descending sort of the candidates by weighted score, then the first entry;
`None` for an empty candidate list. -/
def get_best_signal (cfg : TradingConfig) (signals : List StrategySignal) :
    Option StrategySignal :=
  match signals with
  | [] => none
  | _ :: _ => (sortDesc (weighted_score cfg) signals).head?

/-- Result record of `SignalsBot._calculate_position_info`
(`src/signals_bot.py`). The zero-price-risk early return omits the
`potential_profit` and `potential_loss` keys, hence the `Option`s. -/
structure PositionInfo where
  shares : ℤ
  position_value : ℚ
  risk_amount : ℚ
  position_percent : ℚ
  potential_profit : Option ℚ
  potential_loss : Option ℚ
deriving DecidableEq

/-- `SignalsBot._calculate_position_info` from `src/signals_bot.py`. -/
def calculate_position_info (cfg : TradingConfig) (signal : StrategySignal) : PositionInfo :=
  let account_value : ℚ := 100000
  let risk_amount := account_value * cfg.max_risk_per_trade
  let price_risk := |signal.entry_price - signal.stop_loss|
  if price_risk = 0 then
    { shares := 0, position_value := 0, risk_amount := 0, position_percent := 0
      potential_profit := none, potential_loss := none }
  else
    let shares0 := pyInt (risk_amount / price_risk)
    let position_value0 := (shares0 : ℚ) * signal.entry_price
    let max_position_value := account_value * cfg.max_position_size
    let shares :=
      if max_position_value < position_value0 then
        pyInt (max_position_value / signal.entry_price)
      else shares0
    let position_value := (shares : ℚ) * signal.entry_price
    { shares := shares
      position_value := position_value
      risk_amount := (shares : ℚ) * price_risk
      position_percent := position_value / account_value * 100
      potential_profit := some ((shares : ℚ) * (signal.take_profit - signal.entry_price))
      potential_loss := some ((shares : ℚ) * (signal.entry_price - signal.stop_loss)) }

/-- One `(best_signal, data, position_info)` triple collected by
`SignalsBot.run_analysis`. -/
structure RankedEntry where
  signal : StrategySignal
  data : StockData
  position : PositionInfo
deriving DecidableEq

/-- The per-instrument collection loop of `SignalsBot.run_analysis`: best
signal per stock, in universe iteration order, paired with its sizing. -/
def all_signals (cfg : TradingConfig) (stocks : List StockData) : List RankedEntry :=
  stocks.filterMap (fun d =>
    match get_best_signal cfg (analyze_stock cfg d) with
    | some best =>
      some { signal := best, data := d, position := calculate_position_info cfg best }
    | none => none)

/-- The final filter of `SignalsBot.run_analysis`: confidence at least 0.4 and
risk/reward at least the configured minimum. -/
def valid_signals (cfg : TradingConfig) (l : List RankedEntry) : List RankedEntry :=
  l.filter (fun e =>
    decide (4/10 ≤ e.signal.confidence ∧
      cfg.min_risk_reward_ratio ≤ e.signal.risk_reward_ratio))

/-- The final ranking key `confidence * risk_reward_ratio` of
`SignalsBot.run_analysis`. -/
def rank_key (e : RankedEntry) : ℚ :=
  e.signal.confidence * e.signal.risk_reward_ratio

/-- The ranking stage of `SignalsBot.run_analysis`: filter, stable descending
sort by `rank_key`, truncate to the top 10. -/
def top_signals (cfg : TradingConfig) (stocks : List StockData) : List RankedEntry :=
  (sortDesc rank_key (valid_signals cfg (all_signals cfg stocks))).take 10

/-- The `summary` block of a result dict (`src/signals_bot.py`). The empty
result's summary holds only the two counts and the reason, so the remaining
keys are `Option`s; `_create_result` never writes an `error` key. -/
structure Summary where
  total_stocks_analyzed : ℕ
  signals_generated : ℕ
  avg_confidence : Option ℚ
  avg_risk_reward : Option ℚ
  buy_signals : Option ℕ
  sell_signals : Option ℕ
  total_risk_amount : Option ℚ
  total_position_value : Option ℚ
  error : Option String
deriving DecidableEq

/-- The result dict of `SignalsBot.run_analysis` (timestamp and duration are
informational only and omitted; the per-signal display dicts keep their
underlying `RankedEntry`). -/
structure AnalysisResult where
  summary : Summary
  signals : List RankedEntry
  config : TradingConfig
deriving DecidableEq

/-- `SignalsBot._create_result` from `src/signals_bot.py`. The summary
averages and totals consume the display-rounded per-signal values, as the
source sums `signals_list` dict entries that were built with `round`. -/
def create_result (cfg : TradingConfig) (tops : List RankedEntry) (total_stocks : ℕ) :
    AnalysisResult :=
  let n := tops.length
  let confs := tops.map (fun e => pyRound e.signal.confidence 3)
  let rrs := tops.map (fun e => pyRound e.signal.risk_reward_ratio 2)
  let risks := tops.map (fun e => pyRound e.position.risk_amount 2)
  let values := tops.map (fun e => pyRound e.position.position_value 2)
  { summary :=
      { total_stocks_analyzed := total_stocks
        signals_generated := n
        avg_confidence := some (if n = 0 then 0 else pyRound (confs.sum / (n : ℚ)) 3)
        avg_risk_reward := some (if n = 0 then 0 else pyRound (rrs.sum / (n : ℚ)) 2)
        buy_signals := some (tops.filter (fun e => e.signal.signal_type == "BUY")).length
        sell_signals := some (tops.filter (fun e => e.signal.signal_type == "SELL")).length
        total_risk_amount := some (pyRound risks.sum 2)
        total_position_value := some (pyRound values.sum 2)
        error := none }
    signals := tops
    config := cfg }

/-- `SignalsBot._create_empty_result` from `src/signals_bot.py`. -/
def create_empty_result (cfg : TradingConfig) (reason : String) : AnalysisResult :=
  { summary :=
      { total_stocks_analyzed := 0
        signals_generated := 0
        avg_confidence := none
        avg_risk_reward := none
        buy_signals := none
        sell_signals := none
        total_risk_amount := none
        total_position_value := none
        error := some reason }
    signals := []
    config := cfg }

/-- The body of `SignalsBot.run_analysis` from `src/signals_bot.py`, taken
from the point where the fetched snapshot collection is in hand (data
acquisition is the external collaborator's concern). -/
def run_analysis (cfg : TradingConfig) (stock_data : List StockData) : AnalysisResult :=
  if stock_data.isEmpty then create_empty_result cfg "No stock data available"
  else create_result cfg (top_signals cfg stock_data) stock_data.length

/-! Concrete snapshots and signals used to instantiate the theorems below. -/

/-- A snapshot that triggers only the Volume Breakout SELL branch: volume
ratio 3, gap −2%, and a zero previous close that disables the premarket
strategy. -/
def dSell : StockData :=
  { symbol := "S", current_price := 100, previous_close := 0, premarket_price := none
    premarket_volume := 0, regular_volume := 3000, avg_volume := 1000, gap_percent := -2 }

/-- A snapshot that triggers no strategy at all. -/
def dNone : StockData :=
  { symbol := "Z", current_price := 0, previous_close := 0, premarket_price := none
    premarket_volume := 0, regular_volume := 0, avg_volume := 0, gap_percent := 0 }

/-- A snapshot with a 5% gap but no average-volume baseline. -/
def dC8 : StockData :=
  { symbol := "G", current_price := 100, previous_close := 0, premarket_price := none
    premarket_volume := 0, regular_volume := 0, avg_volume := 0, gap_percent := 5 }

/-- Scenario A's snapshot: gap 5%, volume ratio 2500/1000 = 2.5. -/
def dBuy : StockData :=
  { symbol := "A", current_price := 100, previous_close := 0, premarket_price := none
    premarket_volume := 0, regular_volume := 2500, avg_volume := 1000, gap_percent := 5 }

/-- Scenario B's signal: entry 100, stop 97. -/
def sigScenB : StrategySignal :=
  { symbol := "B", strategy_name := "Gap Momentum", signal_type := "BUY", confidence := 1
    entry_price := 100, stop_loss := 97, take_profit := 106, risk_reward_ratio := 2 }

/-- The signal Gap Momentum emits for dBuy, written with normalized field
values. -/
def sigBuyGap : StrategySignal :=
  { symbol := "A", strategy_name := "Gap Momentum", signal_type := "BUY", confidence := 5/12
    entry_price := 100, stop_loss := 97, take_profit := 106, risk_reward_ratio := 2 }

/-- A Gap Momentum candidate with confidence 1/2 (weighted score 1/5). -/
def sigGapW : StrategySignal :=
  { symbol := "W", strategy_name := "Gap Momentum", signal_type := "BUY", confidence := 1/2
    entry_price := 10, stop_loss := 9, take_profit := 12, risk_reward_ratio := 2 }

/-- A Volume Breakout candidate with confidence 1/2 (weighted score 3/20). -/
def sigVolW : StrategySignal :=
  { symbol := "W", strategy_name := "Volume Breakout", signal_type := "BUY", confidence := 1/2
    entry_price := 10, stop_loss := 9, take_profit := 12, risk_reward_ratio := 2 }

/-- The default configuration with the volume multiplier lowered to 1, under
which a unit volume ratio passes the volume confirmation. -/
def low_volume_config : TradingConfig :=
  { trading_config with volume_threshold_multiplier := 1 }

/-! Helper lemmas about the stable descending sort and the position sizer. -/

theorem insertDesc_perm {α : Type} (key : α → ℚ) (x : α) (s : List α) :
    (insertDesc key x s).Perm (x :: s) := by
  induction s with
  | nil => exact List.Perm.refl _
  | cons y ys ih =>
    rw [insertDesc]
    by_cases h : key x < key y
    · rw [if_pos h]
      exact (ih.cons y).trans (List.Perm.swap x y ys)
    · rw [if_neg h]

theorem sortDesc_perm {α : Type} (key : α → ℚ) (l : List α) :
    (sortDesc key l).Perm l := by
  induction l with
  | nil => exact List.Perm.refl _
  | cons x xs ih =>
    rw [sortDesc]
    exact (insertDesc_perm key x (sortDesc key xs)).trans (ih.cons x)

theorem insertDesc_pairwise {α : Type} (key : α → ℚ) (x : α) (s : List α)
    (hs : s.Pairwise (fun a b => key b ≤ key a)) :
    (insertDesc key x s).Pairwise (fun a b => key b ≤ key a) := by
  induction s with
  | nil => simp [insertDesc]
  | cons y ys ih =>
    rw [List.pairwise_cons] at hs
    rw [insertDesc]
    by_cases h : key x < key y
    · rw [if_pos h, List.pairwise_cons]
      refine ⟨fun a ha => ?_, ih hs.2⟩
      have ha2 : a ∈ x :: ys := (insertDesc_perm key x ys).mem_iff.mp ha
      rcases List.mem_cons.mp ha2 with rfl | ha3
      · exact le_of_lt h
      · exact hs.1 a ha3
    · rw [if_neg h, List.pairwise_cons]
      refine ⟨fun a ha => ?_, List.pairwise_cons.mpr hs⟩
      rcases List.mem_cons.mp ha with rfl | ha3
      · exact le_of_not_lt h
      · exact (hs.1 a ha3).trans (le_of_not_lt h)

theorem sortDesc_pairwise {α : Type} (key : α → ℚ) (l : List α) :
    (sortDesc key l).Pairwise (fun a b => key b ≤ key a) := by
  induction l with
  | nil => simp [sortDesc]
  | cons x xs ih =>
    rw [sortDesc]
    exact insertDesc_pairwise key x _ ih

theorem insertDesc_filter_eq {α : Type} (key : α → ℚ) (c : ℚ) (x : α) (s : List α) :
    (insertDesc key x s).filter (fun a => decide (key a = c)) =
      if key x = c then x :: s.filter (fun a => decide (key a = c))
      else s.filter (fun a => decide (key a = c)) := by
  induction s with
  | nil =>
    rw [insertDesc]
    by_cases h : key x = c <;> simp [List.filter, h]
  | cons y ys ih =>
    rw [insertDesc]
    by_cases h : key x < key y
    · rw [if_pos h]
      by_cases hy : key y = c
      · have hx : ¬key x = c := by
          intro hx
          rw [hx, ← hy] at h
          exact lt_irrefl _ h
        simp [List.filter_cons, hy, hx, ih]
      · simp [List.filter_cons, hy, ih]
    · rw [if_neg h]
      by_cases hx : key x = c <;> simp [List.filter_cons, hx]

theorem sortDesc_filter_eq {α : Type} (key : α → ℚ) (c : ℚ) (l : List α) :
    (sortDesc key l).filter (fun a => decide (key a = c)) =
      l.filter (fun a => decide (key a = c)) := by
  induction l with
  | nil => rfl
  | cons x xs ih =>
    rw [sortDesc, insertDesc_filter_eq]
    by_cases h : key x = c <;> simp [List.filter_cons, h, ih]

theorem insertDesc_head? {α : Type} (key : α → ℚ) (x : α) (s : List α) :
    (insertDesc key x s).head? =
      some (match s with
            | [] => x
            | y :: _ => if key x < key y then y else x) := by
  cases s with
  | nil => rfl
  | cons y ys =>
    rw [insertDesc]
    by_cases h : key x < key y <;> simp [h]

theorem sortDesc_head? {α : Type} (key : α → ℚ) (l : List α) :
    (sortDesc key l).head? = firstMax key l := by
  induction l with
  | nil => rfl
  | cons x xs ih =>
    rw [sortDesc, insertDesc_head?, firstMax]
    cases hs : sortDesc key xs with
    | nil =>
      rw [hs] at ih
      rw [← ih]
      rfl
    | cons y ys =>
      rw [hs] at ih
      rw [← ih]
      by_cases h : key x < key y <;> simp [h]

theorem firstMax_isSome {α : Type} (key : α → ℚ) (x : α) (xs : List α) :
    (firstMax key (x :: xs)).isSome = true := by
  rw [firstMax]
  cases firstMax key xs with
  | none => rfl
  | some y => by_cases h : key x < key y <;> simp [h]

theorem firstMax_spec {α : Type} (key : α → ℚ) (l : List α) (m : α)
    (hm : firstMax key l = some m) :
    m ∈ l ∧ (∀ a ∈ l, key a ≤ key m) ∧
      ∃ l₁ l₂, l = l₁ ++ m :: l₂ ∧ ∀ a ∈ l₁, key a < key m := by
  induction l generalizing m with
  | nil => simp [firstMax] at hm
  | cons x xs ih =>
    rw [firstMax] at hm
    split at hm
    · rename_i heq
      injection hm with hm
      subst hm
      cases xs with
      | nil =>
        refine ⟨List.mem_singleton_self _, ?_, [], [], rfl, ?_⟩
        · intro a ha
          rw [List.mem_singleton] at ha
          subst ha
          exact le_refl _
        · intro a ha
          simp at ha
      | cons z zs =>
        have hsome := firstMax_isSome key z zs
        rw [heq] at hsome
        simp at hsome
    · rename_i y heq
      by_cases h : key x < key y
      · rw [if_pos h] at hm
        injection hm with hm
        subst hm
        obtain ⟨hmem, hmax, l₁, l₂, heql, hlt⟩ := ih _ heq
        refine ⟨List.mem_cons_of_mem x hmem, ?_, x :: l₁, l₂, by rw [heql, List.cons_append], ?_⟩
        · intro a ha
          rcases List.mem_cons.mp ha with rfl | ha2
          · exact le_of_lt h
          · exact hmax a ha2
        · intro a ha
          rcases List.mem_cons.mp ha with rfl | ha2
          · exact h
          · exact hlt a ha2
      · rw [if_neg h] at hm
        injection hm with hm
        subst hm
        have hmax := (ih _ heq).2.1
        refine ⟨List.mem_cons_self _ _, ?_, [], xs, rfl, ?_⟩
        · intro a ha
          rcases List.mem_cons.mp ha with rfl | ha2
          · exact le_refl _
          · exact (hmax a ha2).trans (le_of_not_lt h)
        · intro a ha
          simp at ha

theorem get_best_signal_eq_firstMax (cfg : TradingConfig) (l : List StrategySignal) :
    get_best_signal cfg l = firstMax (weighted_score cfg) l := by
  cases l with
  | nil => rfl
  | cons x xs =>
    show (sortDesc (weighted_score cfg) (x :: xs)).head? = _
    exact sortDesc_head? (weighted_score cfg) (x :: xs)

theorem pyInt_nonneg (q : ℚ) (h : 0 ≤ q) : 0 ≤ pyInt q := by
  rw [pyInt, if_neg (not_lt.2 h)]
  exact Int.floor_nonneg.2 h

/-! The claims. -/

/-- C1: whenever the risk-budget share count's position value exceeds the
maximum allowed position value, the position-size cap determines the final
share count: the sizer recomputes `shares = int(max_allowed_value /
entry_price)` and the position value accordingly, overriding the risk-budget
share count. Instantiated at Scenario B (entry 100, stop 97, default
configuration: 666 risk-budget shares, value 66600 > 10000, final 100 shares)
by the witness. -/
theorem claim_C1_position_cap_wins (cfg : TradingConfig) (s : StrategySignal)
    (hpr : |s.entry_price - s.stop_loss| ≠ 0)
    (hcap : 100000 * cfg.max_position_size <
      (pyInt (100000 * cfg.max_risk_per_trade / |s.entry_price - s.stop_loss|) : ℚ) *
        s.entry_price) :
    (calculate_position_info cfg s).shares =
      pyInt (100000 * cfg.max_position_size / s.entry_price) ∧
    (calculate_position_info cfg s).position_value =
      (pyInt (100000 * cfg.max_position_size / s.entry_price) : ℚ) * s.entry_price := by
  simp only [calculate_position_info, if_neg hpr, if_pos hcap]
  exact ⟨trivial, trivial⟩

/-- Witness for C1 at Scenario B: shares = int(2000/3) = 666 would put 66600
at risk-budget sizing, the cap recomputes to int(10000/100) = 100. -/
theorem claim_C1_position_cap_wins_witness :
    pyInt (100000 * trading_config.max_risk_per_trade / |sigScenB.entry_price - sigScenB.stop_loss|) = 666 ∧
    (calculate_position_info trading_config sigScenB).shares =
      pyInt (100000 * trading_config.max_position_size / sigScenB.entry_price) ∧
    (calculate_position_info trading_config sigScenB).shares = 100 ∧
    (calculate_position_info trading_config sigScenB).position_value = 10000 := by
  refine ⟨by decide,
    (claim_C1_position_cap_wins trading_config sigScenB (by decide) (by decide)).1,
    by decide, by decide⟩

/-- C7: the Premarket Momentum evaluator returns no signal whenever the
previous close is zero or negative, so the premarket-move division by the
previous close is never reached with a non-positive denominator. -/
theorem claim_C7_premarket_guard (cfg : TradingConfig) (d : StockData)
    (h : d.previous_close ≤ 0) : premarket_momentum_analyze cfg d = none := by
  simp only [premarket_momentum_analyze]
  rw [if_neg (not_lt.2 h)]

/-- Witness for C7 at a snapshot with previous close 0. -/
theorem claim_C7_premarket_guard_witness :
    dNone.previous_close ≤ 0 ∧ premarket_momentum_analyze trading_config dNone = none :=
  ⟨by decide, claim_C7_premarket_guard trading_config dNone (by decide)⟩

/-- C10: the two copies of the position-sizing computation — the strategy base
class's `calculate_position_sizing` and the orchestrator's
`_calculate_position_info` — agree on shares, position value and risk amount
for every signal and configuration (both hardcode the 100,000 account value),
and both return a zero-sized position when the entry price equals the stop
loss. -/
theorem claim_C10_sizing_copies_agree (cfg : TradingConfig) (s : StrategySignal) :
    (calculate_position_sizing cfg s.entry_price s.stop_loss).shares =
      (calculate_position_info cfg s).shares ∧
    (calculate_position_sizing cfg s.entry_price s.stop_loss).position_value =
      (calculate_position_info cfg s).position_value ∧
    (calculate_position_sizing cfg s.entry_price s.stop_loss).risk_amount =
      (calculate_position_info cfg s).risk_amount ∧
    (s.entry_price = s.stop_loss →
      (calculate_position_sizing cfg s.entry_price s.stop_loss).shares = 0 ∧
      (calculate_position_sizing cfg s.entry_price s.stop_loss).position_value = 0 ∧
      (calculate_position_sizing cfg s.entry_price s.stop_loss).risk_amount = 0 ∧
      (calculate_position_info cfg s).shares = 0 ∧
      (calculate_position_info cfg s).position_value = 0 ∧
      (calculate_position_info cfg s).risk_amount = 0) := by
  by_cases h : |s.entry_price - s.stop_loss| = 0
  · simp only [calculate_position_sizing, calculate_position_info, if_pos h]
    refine ⟨trivial, trivial, trivial, fun _ => ⟨trivial, trivial, trivial, trivial, trivial, trivial⟩⟩
  · have hne : ¬s.entry_price = s.stop_loss := by
      intro he
      exact h (by rw [he, sub_self, abs_zero])
    simp only [calculate_position_sizing, calculate_position_info, if_neg h]
    exact ⟨trivial, trivial, trivial, fun he => absurd he hne⟩

/-- C5 counterexample: for a non-empty universe in which no selection passes
the final filters, the engine reports through the regular result path: the
summary's total_stocks_analyzed is 1, not 0, and the summary carries no
reason string, so the claim fails for the "none pass the final filters"
case. -/
theorem claim_C5_counterexample :
    top_signals trading_config [dNone] = [] ∧
    (run_analysis trading_config [dNone]).summary.total_stocks_analyzed = 1 ∧
    (run_analysis trading_config [dNone]).summary.error = none := by
  exact ⟨by decide, by decide, by decide⟩

/-- C5 amended: for an empty universe the engine returns the well-formed empty
result with both counts zero and the explicit reason string "No stock data
available". For a non-empty universe whose selections all fail the final
filters the engine still returns a well-formed result (the model is a total
function, so no exception), with signals_generated = 0 and an empty signal
list — but total_stocks_analyzed equals the universe size and the summary
carries no reason string. -/
theorem claim_C5_empty_result (cfg : TradingConfig) (stocks : List StockData) :
    (run_analysis cfg [] = create_empty_result cfg "No stock data available" ∧
      (run_analysis cfg []).summary.total_stocks_analyzed = 0 ∧
      (run_analysis cfg []).summary.signals_generated = 0 ∧
      (run_analysis cfg []).summary.error = some "No stock data available" ∧
      (run_analysis cfg []).signals = []) ∧
    (stocks ≠ [] →
      (run_analysis cfg stocks).summary.total_stocks_analyzed = stocks.length ∧
      (run_analysis cfg stocks).summary.signals_generated = (top_signals cfg stocks).length ∧
      (run_analysis cfg stocks).summary.error = none ∧
      (run_analysis cfg stocks).signals = top_signals cfg stocks) := by
  constructor
  · exact ⟨rfl, rfl, rfl, rfl, rfl⟩
  · intro hne
    cases stocks with
    | nil => exact absurd rfl hne
    | cons a as =>
      simp only [run_analysis, List.isEmpty_cons, Bool.false_eq_true, if_false]
      exact ⟨rfl, rfl, rfl, rfl⟩

/-- C3: the ranking stage keeps exactly the per-instrument selections with
confidence ≥ 0.4 and risk/reward ≥ the configured minimum, sorts them in
non-increasing order of confidence × risk/reward with a stable sort (tied
entries keep the universe iteration order: the key-level filter equality),
and truncates to at most 10 entries. -/
theorem claim_C3_portfolio_ranking (cfg : TradingConfig) (stocks : List StockData) :
    (top_signals cfg stocks).length ≤ 10 ∧
    (top_signals cfg stocks).Pairwise (fun a b => rank_key b ≤ rank_key a) ∧
    top_signals cfg stocks =
      (sortDesc rank_key (valid_signals cfg (all_signals cfg stocks))).take 10 ∧
    (sortDesc rank_key (valid_signals cfg (all_signals cfg stocks))).Perm
      (valid_signals cfg (all_signals cfg stocks)) ∧
    (∀ e, e ∈ sortDesc rank_key (valid_signals cfg (all_signals cfg stocks)) ↔
      e ∈ all_signals cfg stocks ∧ 4/10 ≤ e.signal.confidence ∧
        cfg.min_risk_reward_ratio ≤ e.signal.risk_reward_ratio) ∧
    (∀ c : ℚ,
      (sortDesc rank_key (valid_signals cfg (all_signals cfg stocks))).filter
          (fun e => decide (rank_key e = c)) =
        (valid_signals cfg (all_signals cfg stocks)).filter
          (fun e => decide (rank_key e = c))) := by
  refine ⟨?_, ?_, rfl, sortDesc_perm _ _, ?_, fun c => sortDesc_filter_eq _ c _⟩
  · rw [top_signals]
    exact List.length_take_le 10 _
  · exact List.Pairwise.sublist (List.take_sublist 10 _) (sortDesc_pairwise _ _)
  · intro e
    rw [(sortDesc_perm rank_key _).mem_iff, valid_signals, List.mem_filter]
    simp only [decide_eq_true_eq]

/-- C4: for a non-empty candidate list the selector returns a candidate of
maximal weighted score (confidence × configured strategy weight under the
lowercase, space-to-underscore normalization, default weight 1/2 for names
absent from the mapping); among tied maximal scores the candidate earliest in
the list — candidate lists are assembled in evaluator registration order
(Gap Momentum, Volume Breakout, Premarket Momentum) by analyze_stock — wins;
for the empty list it returns none. -/
theorem claim_C4_best_signal_selection (cfg : TradingConfig) (l : List StrategySignal) :
    get_best_signal cfg [] = none ∧
    (∀ s, get_best_signal cfg l = some s →
      s ∈ l ∧ (∀ t ∈ l, weighted_score cfg t ≤ weighted_score cfg s) ∧
      ∃ l₁ l₂, l = l₁ ++ s :: l₂ ∧
        ∀ t ∈ l₁, weighted_score cfg t < weighted_score cfg s) ∧
    (l ≠ [] → (get_best_signal cfg l).isSome = true) ∧
    (∀ name : String,
      cfg.strategy_weights.find? (fun kv => kv.1 == normalize_name name) = none →
      strategy_weight cfg name = 1/2) ∧
    (∀ s : StrategySignal,
      weighted_score cfg s = s.confidence * strategy_weight cfg s.strategy_name) := by
  refine ⟨rfl, ?_, ?_, ?_, fun s => rfl⟩
  · intro s hs
    rw [get_best_signal_eq_firstMax] at hs
    exact firstMax_spec (weighted_score cfg) l s hs
  · intro hne
    cases l with
    | nil => exact absurd rfl hne
    | cons x xs =>
      rw [get_best_signal_eq_firstMax]
      exact firstMax_isSome _ x xs
  · intro name h
    simp only [strategy_weight, h]

theorem signed_rr_pos (p a b : ℚ) (ha : 1 < a) (hb : b < 1) (hden : p - p * b ≠ 0) :
    0 < (p * a - p) / (p - p * b) := by
  have hp : p ≠ 0 := by
    intro h0
    apply hden
    rw [h0]
    ring
  rw [show p * a - p = p * (a - 1) by ring, show p - p * b = p * (1 - b) by ring,
    mul_div_mul_left _ _ hp]
  exact div_pos (by linarith) (by linarith)

theorem ne_of_abs_sub_ne_zero {a b : ℚ} (h : |a - b| ≠ 0) : a ≠ b := fun he =>
  h (by rw [he, sub_self, abs_zero])

theorem abs_rr_pos (p a b : ℚ) (ha : a ≠ 1) (hden : |p - p * b| ≠ 0) :
    0 < |p * a - p| / |p - p * b| := by
  have den_ne : p - p * b ≠ 0 := by
    intro h0
    exact hden (by rw [h0, abs_zero])
  have hp : p ≠ 0 := by
    intro h0
    apply den_ne
    rw [h0]
    ring
  have num_ne : p * a - p ≠ 0 := by
    intro h0
    have h1 : p * (a - 1) = 0 := by linarith
    rcases mul_eq_zero.mp h1 with h2 | h2
    · exact hp h2
    · exact ha (by linarith)
  exact div_pos (abs_pos.mpr num_ne) (abs_pos.mpr den_ne)

/-- C6: any CandidateSignal returned by one of the three evaluators has a
strictly positive risk/reward quotient (a rational value is finite by
construction, so finiteness is built into the model), and a zero price-risk
denominator — entry price equal to stop loss — never yields a signal: every
returned signal satisfies entry ≠ stop because each evaluator maps the zero
denominator to none via its exception path. -/
theorem claim_C6_rr_positive (cfg : TradingConfig) (d : StockData) :
    (∀ s, gap_momentum_analyze cfg d = some s →
      0 < s.risk_reward_ratio ∧ s.entry_price ≠ s.stop_loss) ∧
    (∀ s, volume_breakout_analyze cfg d = some s →
      0 < s.risk_reward_ratio ∧ s.entry_price ≠ s.stop_loss) ∧
    (∀ s, premarket_momentum_analyze cfg d = some s →
      0 < s.risk_reward_ratio ∧ s.entry_price ≠ s.stop_loss) := by
  refine ⟨?_, ?_, ?_⟩ <;> intro s hs
  · simp only [gap_momentum_analyze] at hs
    repeat' split at hs
    all_goals first
    | exact Option.noConfusion hs
    | (injection hs with hs
       subst hs
       exact ⟨signed_rr_pos _ _ _ (by norm_num) (by norm_num) (by assumption),
         sub_ne_zero.mp (by assumption)⟩)
  · simp only [volume_breakout_analyze] at hs
    repeat' split at hs
    all_goals first
    | exact Option.noConfusion hs
    | (injection hs with hs
       subst hs
       exact ⟨abs_rr_pos _ _ _ (by norm_num) (by assumption),
         ne_of_abs_sub_ne_zero (by assumption)⟩)
  · simp only [premarket_momentum_analyze] at hs
    repeat' split at hs
    all_goals first
    | exact Option.noConfusion hs
    | (injection hs with hs
       subst hs
       exact ⟨signed_rr_pos _ _ _ (by norm_num) (by norm_num) (by assumption),
         sub_ne_zero.mp (by assumption)⟩)

/-- C8 counterexample: with zero average volume and a 5% gap under the default
configuration (gap threshold 3, volume multiplier 2), Gap Momentum emits no
signal: the unit volume ratio is still compared against the multiplier and
fails, so volume confirmation is applied with ratio 1.0, not skipped. -/
theorem claim_C8_counterexample :
    dC8.avg_volume = 0 ∧
    trading_config.gap_threshold_percent ≤ |dC8.gap_percent| ∧
    gap_momentum_analyze trading_config dC8 = none := by
  exact ⟨by decide, by decide, by decide⟩

/-- C8 amended: when the average volume is zero the volume ratio used in both
the trigger and the confidence formula is 1.0, but the trigger still checks it
against the volume multiplier: for a gap beyond the threshold (and a nonzero
price), a signal is emitted exactly when the multiplier is at most 1 — under
the default multiplier 2.0 such snapshots are rejected, not passed. -/
theorem claim_C8_amended (cfg : TradingConfig) (d : StockData)
    (havg : d.avg_volume = 0) (hgap : cfg.gap_threshold_percent ≤ |d.gap_percent|)
    (hp : d.current_price ≠ 0) :
    ((gap_momentum_analyze cfg d).isSome = true ↔ cfg.volume_threshold_multiplier ≤ 1) ∧
    (∀ s, gap_momentum_analyze cfg d = some s →
      s.confidence = min (9/10) ((d.gap_percent / 10) * (1 / 3)) ∨
      s.confidence = min (8/10) ((|d.gap_percent| / 15) * (1 / 3))) := by
  have hav : ¬(0 < d.avg_volume) := by
    rw [havg]
    exact lt_irrefl 0
  have hden97 : d.current_price - d.current_price * (97/100) ≠ 0 := by
    intro h0
    apply hp
    have h3 : d.current_price * (3/100) = 0 := by linarith
    rcases mul_eq_zero.mp h3 with h1 | h1
    · exact h1
    · norm_num at h1
  have hden95 : d.current_price - d.current_price * (95/100) ≠ 0 := by
    intro h0
    apply hp
    have h3 : d.current_price * (5/100) = 0 := by linarith
    rcases mul_eq_zero.mp h3 with h1 | h1
    · exact h1
    · norm_num at h1
  simp only [gap_momentum_analyze]
  rw [if_neg hav]
  by_cases hg1 : cfg.gap_threshold_percent ≤ d.gap_percent
  · rw [if_pos hg1]
    constructor
    · by_cases hm : cfg.volume_threshold_multiplier ≤ 1
      · rw [if_pos hm, if_neg hden97]
        simp [hm]
      · rw [if_neg hm]
        simp [hm]
    · intro t ht
      repeat' split at ht
      all_goals first
      | exact Option.noConfusion ht
      | (injection ht with ht
         subst ht
         exact Or.inl rfl)
  · have hneg : d.gap_percent < 0 := by
      by_contra hge
      push_neg at hge
      rw [abs_of_nonneg hge] at hgap
      exact hg1 hgap
    have hg2 : d.gap_percent ≤ -cfg.gap_threshold_percent := by
      rw [abs_of_neg hneg] at hgap
      linarith
    rw [if_neg hg1, if_pos hg2]
    constructor
    · by_cases hm : cfg.volume_threshold_multiplier ≤ 1
      · rw [if_pos hm, if_neg hden95]
        simp [hm]
      · rw [if_neg hm]
        simp [hm]
    · intro t ht
      repeat' split at ht
      all_goals first
      | exact Option.noConfusion ht
      | (injection ht with ht
         subst ht
         exact Or.inr rfl)

/-- Witness for C8's amended claim: lowering the volume multiplier to 1 makes
the zero-average-volume snapshot with a 5% gap emit a signal. -/
theorem claim_C8_amended_witness :
    (gap_momentum_analyze low_volume_config dC8).isSome = true :=
  (claim_C8_amended low_volume_config dC8 (by decide) (by decide) (by decide)).1.mpr
    (by decide)

/-- C9: Scenario A — a snapshot with gap 5%, a positive volume baseline and
volume ratio 2.5 under the default thresholds (gap 3, multiplier 2) makes Gap
Momentum emit a BUY with stop = price × 0.97, target = price × 1.06 and
confidence min(0.9, (5/10) × (2.5/3)) = 5/12 ≈ 0.417. -/
theorem claim_C9_scenario_a (d : StockData)
    (hgap : d.gap_percent = 5)
    (havg : 0 < d.avg_volume)
    (hratio : ((d.regular_volume : ℚ) + (d.premarket_volume : ℚ)) / d.avg_volume = 5/2)
    (hp : 0 < d.current_price) :
    ∃ s, gap_momentum_analyze trading_config d = some s ∧
      s.signal_type = "BUY" ∧
      s.entry_price = d.current_price ∧
      s.stop_loss = d.current_price * (97/100) ∧
      s.take_profit = d.current_price * (106/100) ∧
      s.confidence = min (9/10) ((5/10) * ((5/2) / 3)) ∧
      s.confidence = 5/12 := by
  have hden : d.current_price - d.current_price * (97/100) ≠ 0 := by
    intro h0
    have h3 : d.current_price * (3/100) = 0 := by linarith
    rcases mul_eq_zero.mp h3 with h1 | h1
    · exact absurd h1 (ne_of_gt hp)
    · norm_num at h1
  simp only [gap_momentum_analyze]
  rw [if_pos havg, hratio, hgap]
  rw [if_pos (by decide : trading_config.gap_threshold_percent ≤ (5 : ℚ)),
    if_pos (by decide : trading_config.volume_threshold_multiplier ≤ (5/2 : ℚ)),
    if_neg hden]
  refine ⟨_, rfl, rfl, rfl, rfl, rfl, rfl, ?_⟩
  show min (9/10 : ℚ) ((5/10) * ((5/2) / 3)) = 5/12
  decide

/-- Witness for C9 at the concrete Scenario A snapshot. -/
theorem claim_C9_scenario_a_witness :
    ∃ s, gap_momentum_analyze trading_config dBuy = some s ∧
      s.signal_type = "BUY" ∧ s.confidence = 5/12 := by
  obtain ⟨s, hs, hb, _, _, _, _, hc⟩ :=
    claim_C9_scenario_a dBuy (by decide) (by decide) (by decide) (by decide)
  exact ⟨s, hs, hb, hc⟩

/-- C2 counterexample: a selected Volume Breakout SELL signal (entry 100,
target 92, stop 104) is sized with potential_profit = −800 and
potential_loss = −400: the sizer multiplies the signed price differences, so
potential_profit ≠ shares × |take_profit − entry_price| and two fields of the
sized position are negative. -/
theorem claim_C2_counterexample :
    ((all_signals trading_config [dSell]).map (fun e => e.signal.signal_type) = ["SELL"]) ∧
    ((all_signals trading_config [dSell]).map
      (fun e => (e.signal.entry_price, e.signal.take_profit, e.signal.stop_loss)) =
        [(100, 92, 104)]) ∧
    ((all_signals trading_config [dSell]).map (fun e => e.position.shares) = [100]) ∧
    ((all_signals trading_config [dSell]).map (fun e => e.position.potential_profit) =
      [some (-800)]) ∧
    ((all_signals trading_config [dSell]).map (fun e => e.position.potential_loss) =
      [some (-400)]) ∧
    ((-800 : ℚ) ≠ (100 : ℚ) * |(92 : ℚ) - 100|) ∧ ((-800 : ℚ) < 0) := by
  exact ⟨by decide, by decide, by decide, by decide, by decide, by decide, by decide⟩

/-- C2 amended: the sizer's potential_profit and potential_loss are the signed
products shares × (take_profit − entry_price) and shares × (entry_price −
stop_loss) — equal to the absolute-value forms only for BUY-shaped signals and
negative for SELL-shaped ones — while shares, position_value, risk_amount and
position_percent are never negative (given a non-negative entry price and
non-negative configuration fractions). -/
theorem claim_C2_amended (cfg : TradingConfig) (s : StrategySignal)
    (hentry : 0 ≤ s.entry_price) (hrisk : 0 ≤ cfg.max_risk_per_trade)
    (hpos : 0 ≤ cfg.max_position_size) :
    0 ≤ (calculate_position_info cfg s).shares ∧
    0 ≤ (calculate_position_info cfg s).position_value ∧
    0 ≤ (calculate_position_info cfg s).risk_amount ∧
    0 ≤ (calculate_position_info cfg s).position_percent ∧
    (|s.entry_price - s.stop_loss| ≠ 0 →
      (calculate_position_info cfg s).potential_profit =
        some (((calculate_position_info cfg s).shares : ℚ) *
          (s.take_profit - s.entry_price)) ∧
      (calculate_position_info cfg s).potential_loss =
        some (((calculate_position_info cfg s).shares : ℚ) *
          (s.entry_price - s.stop_loss))) := by
  by_cases h : |s.entry_price - s.stop_loss| = 0
  · simp only [calculate_position_info, if_pos h]
    exact ⟨le_refl 0, le_refl 0, le_refl 0, le_refl 0, fun hc => absurd h hc⟩
  · have habs : 0 < |s.entry_price - s.stop_loss| :=
      lt_of_le_of_ne (abs_nonneg _) (Ne.symm h)
    have hsharesA :
        0 ≤ pyInt (100000 * cfg.max_risk_per_trade / |s.entry_price - s.stop_loss|) :=
      pyInt_nonneg _ (div_nonneg (mul_nonneg (by norm_num) hrisk) habs.le)
    simp only [calculate_position_info, if_neg h]
    by_cases hcap : 100000 * cfg.max_position_size <
        (pyInt (100000 * cfg.max_risk_per_trade / |s.entry_price - s.stop_loss|) : ℚ) *
          s.entry_price
    · have hent_pos : 0 < s.entry_price := by
        rcases lt_or_eq_of_le hentry with h1 | h1
        · exact h1
        · exfalso
          rw [← h1, mul_zero] at hcap
          have : (0 : ℚ) ≤ 100000 * cfg.max_position_size :=
            mul_nonneg (by norm_num) hpos
          linarith
      have hsharesB : 0 ≤ pyInt (100000 * cfg.max_position_size / s.entry_price) :=
        pyInt_nonneg _ (div_nonneg (mul_nonneg (by norm_num) hpos) hent_pos.le)
      rw [if_pos hcap]
      have hpv : 0 ≤ (pyInt (100000 * cfg.max_position_size / s.entry_price) : ℚ) *
          s.entry_price :=
        mul_nonneg (Int.cast_nonneg.mpr hsharesB) hentry
      exact ⟨hsharesB, hpv,
        mul_nonneg (Int.cast_nonneg.mpr hsharesB) (abs_nonneg _),
        mul_nonneg (div_nonneg hpv (by norm_num)) (by norm_num),
        fun _ => ⟨trivial, trivial⟩⟩
    · rw [if_neg hcap]
      have hpv : 0 ≤
          (pyInt (100000 * cfg.max_risk_per_trade / |s.entry_price - s.stop_loss|) : ℚ) *
            s.entry_price :=
        mul_nonneg (Int.cast_nonneg.mpr hsharesA) hentry
      exact ⟨hsharesA, hpv,
        mul_nonneg (Int.cast_nonneg.mpr hsharesA) (abs_nonneg _),
        mul_nonneg (div_nonneg hpv (by norm_num)) (by norm_num),
        fun _ => ⟨trivial, trivial⟩⟩

/-- Witness for C2's amended claim at Scenario B's signal. -/
theorem claim_C2_amended_witness :
    0 ≤ (calculate_position_info trading_config sigScenB).shares ∧
    (calculate_position_info trading_config sigScenB).potential_profit =
      some (((calculate_position_info trading_config sigScenB).shares : ℚ) *
        (sigScenB.take_profit - sigScenB.entry_price)) := by
  have h := claim_C2_amended trading_config sigScenB (by decide) (by decide) (by decide)
  exact ⟨h.1, (h.2.2.2.2 (by decide)).1⟩

/-- Witness for C4 at a concrete two-candidate list: the Gap Momentum
candidate, whose configured weight is larger, is selected. -/
theorem claim_C4_best_signal_selection_witness :
    get_best_signal trading_config [sigGapW, sigVolW] = some sigGapW ∧
    sigGapW ∈ [sigGapW, sigVolW] ∧
    (∀ t ∈ [sigGapW, sigVolW],
      weighted_score trading_config t ≤ weighted_score trading_config sigGapW) := by
  have h :=
    (claim_C4_best_signal_selection trading_config [sigGapW, sigVolW]).2.1 sigGapW
      (by with_unfolding_all decide)
  exact ⟨by with_unfolding_all decide, h.1, h.2.1⟩

/-- Witness for C6 at a concrete emitted Gap Momentum signal. -/
theorem claim_C6_rr_positive_witness :
    0 < sigBuyGap.risk_reward_ratio ∧ sigBuyGap.entry_price ≠ sigBuyGap.stop_loss :=
  (claim_C6_rr_positive trading_config dBuy).1 sigBuyGap (by decide)

end SignalsBot
